import Mathlib

/-!
Shallow embedding of the Optimod SNMP → EmberPlus gateway (src/index.js).

The gateway polls nine SNMP OIDs in one batch (the `oids` object, lines
44-54) and writes the results into eleven EmberPlus parameter leaves:
nine data leaves (two String-kind, seven Boolean-kind) plus the two
status leaves `Optimod Connected` (Boolean) and `Last Poll` (String).

Index ↔ key correspondence, following the insertion order of the `oids`
object (`Object.keys`/`Object.values` preserve it):
  0 softwareVersion (String), 1 stationName (String),
  2 inputAnalog, 3 inputDigital, 4 analogInputSilent, 5 aesInputSilent,
  6 aesInputError, 7 powerSupply1Status, 8 powerSupply2Status (Boolean).

Raw SNMP varbind values arrive either as JS numbers (Integer types) or
as Buffers (OctetString); `RawValue` models the two shapes.  `value.toString()`
is `toStringJS`; `parseInt(value)` is `parseIntRaw`, with JS `parseInt`
on strings modelled by `parseIntJS` (leading whitespace, optional sign,
longest leading run of decimal digits, `none` for NaN).
-/

/-- Parameter value as held in an EmberPlus leaf: either a string or a boolean. -/
inductive PValue where
  | str (s : String)
  | bool (b : Bool)
deriving DecidableEq, Repr

/-- Raw SNMP varbind payload: an integer (SNMP Integer) or a textual payload
(SNMP OctetString, a Buffer in the source). -/
inductive RawValue where
  | rint (n : Int)
  | rstr (s : String)
deriving DecidableEq, Repr

/-- One returned varbind: either a protocol-level error marker
(`snmp.isVarbindError`, line 240) or a successful raw value. -/
inductive Varbind where
  | err
  | ok (v : RawValue)
deriving DecidableEq, Repr

/-- Accumulate the longest leading run of decimal digits; `none` when the
run is empty (JS `parseInt` returns NaN then). -/
def leadingNat : List Char → Option Nat → Option Nat
  | [], acc => acc
  | c :: cs, acc =>
      if c.isDigit then leadingNat cs (some ((acc.getD 0) * 10 + (c.toNat - 48)))
      else acc

/-- JS `parseInt` on a string (radix-10 inputs): skip leading whitespace,
take an optional sign, then the longest leading run of decimal digits;
`none` models NaN. -/
def parseIntJS (s : String) : Option Int :=
  let cs := s.data.dropWhile (fun c => c = ' ' ∨ c = '\t' ∨ c = '\n' ∨ c = '\r')
  match cs with
  | '-' :: rest => (leadingNat rest none).map (fun n => -(n : Int))
  | '+' :: rest => (leadingNat rest none).map (fun n => (n : Int))
  | _ => (leadingNat cs none).map (fun n => (n : Int))

/-- JS `value.toString()` on a raw varbind value: decimal rendering for a
number, the text itself (verbatim) for a Buffer payload. -/
def toStringJS : RawValue → String
  | .rint n => toString n
  | .rstr s => s

/-- JS `parseInt(value)`: a number is first rendered to decimal text, which
parses back to itself; a Buffer payload is parsed as text. -/
def parseIntRaw : RawValue → Option Int
  | .rint n => some n
  | .rstr s => parseIntJS s

/-- Boolean decode of line 254: `const boolVal = (parseInt(value) === 1)`.
NaN === 1 is false, so a failed parse yields `false`. -/
def decodeBool (v : RawValue) : Bool :=
  match parseIntRaw v with
  | some n => n == 1
  | none => false

/-- Values of the eleven EmberPlus parameter leaves the gateway updates:
nine data leaves plus the `Optimod Connected` and `Last Poll` status
leaves (lines 63-112 declare them; `pollOptimod` writes them). -/
structure TreeState where
  softwareVersion : PValue
  stationName : PValue
  inputAnalog : PValue
  inputDigital : PValue
  analogInputSilent : PValue
  aesInputSilent : PValue
  aesInputError : PValue
  powerSupply1Status : PValue
  powerSupply2Status : PValue
  connected : PValue
  lastPoll : PValue
deriving DecidableEq, Repr

/-- Initial leaf values from the `ParameterImpl` constructors (lines 63-112):
empty string for String-kind leaves, `false` for Boolean-kind leaves. -/
def initialTree : TreeState :=
  { softwareVersion := .str "", stationName := .str "",
    inputAnalog := .bool false, inputDigital := .bool false,
    analogInputSilent := .bool false, aesInputSilent := .bool false,
    aesInputError := .bool false, powerSupply1Status := .bool false,
    powerSupply2Status := .bool false,
    connected := .bool false, lastPoll := .str "" }

/-- Data leaf of the quantity at batch index `i` (see the index ↔ key table
in the module docstring). -/
def leafValue (s : TreeState) (i : Fin 9) : PValue :=
  match i.val with
  | 0 => s.softwareVersion
  | 1 => s.stationName
  | 2 => s.inputAnalog
  | 3 => s.inputDigital
  | 4 => s.analogInputSilent
  | 5 => s.aesInputSilent
  | 6 => s.aesInputError
  | 7 => s.powerSupply1Status
  | _ => s.powerSupply2Status

/-- Write the data leaf of the quantity at batch index `i` (the
`server.update(...ParameterNode, { value })` call of the matching branch). -/
def setLeaf (s : TreeState) (i : Fin 9) (v : PValue) : TreeState :=
  match i.val with
  | 0 => { s with softwareVersion := v }
  | 1 => { s with stationName := v }
  | 2 => { s with inputAnalog := v }
  | 3 => { s with inputDigital := v }
  | 4 => { s with analogInputSilent := v }
  | 5 => { s with aesInputSilent := v }
  | 6 => { s with aesInputError := v }
  | 7 => { s with powerSupply1Status := v }
  | _ => { s with powerSupply2Status := v }

/-- Decode a raw value per the quantity's kind: indices 0 and 1
(softwareVersion, stationName) take `value.toString()` (lines 245-251),
all others take `parseInt(value) === 1` (lines 253-284). -/
def decodeItem (i : Fin 9) (v : RawValue) : PValue :=
  if i.val ≤ 1 then PValue.str (toStringJS v) else PValue.bool (decodeBool v)

/-- Per-item step of the `keys.forEach` loop (lines 239-287): an item whose
varbind carries an error marker is skipped (leaf retained), otherwise its
decoded value is written to its leaf. -/
def applyItem (s : TreeState) (i : Fin 9) (vb : Varbind) : TreeState :=
  match vb with
  | .err => s
  | .ok v => setLeaf s i (decodeItem i v)

/-- Error branch of the `session.get` callback (lines 227-232): mark the
device disconnected and touch nothing else. -/
def markFailure (s : TreeState) : TreeState :=
  { s with connected := PValue.bool false }

/-- Success prologue of the callback (lines 234-235): mark connected and
stamp the last-poll leaf with the current time's ISO rendering. -/
def markSuccess (s : TreeState) (now : String) : TreeState :=
  { s with connected := PValue.bool true, lastPoll := PValue.str now }

/-- One polling cycle (`pollOptimod`, lines 223-289).  `resp = none` models
failure of the whole batch `session.get`; `resp = some vbs` models a
successful batch whose nine varbinds are `vbs 0 .. vbs 8`; `now` is the
ISO timestamp string taken at the callback. -/
def pollCycle (s : TreeState) (resp : Option (Fin 9 → Varbind)) (now : String) : TreeState :=
  match resp with
  | none => markFailure s
  | some vbs =>
      applyItem (applyItem (applyItem (applyItem (applyItem (applyItem (applyItem (applyItem
        (applyItem (markSuccess s now) 0 (vbs 0))
        1 (vbs 1)) 2 (vbs 2)) 3 (vbs 3)) 4 (vbs 4)) 5 (vbs 5)) 6 (vbs 6)) 7 (vbs 7)) 8 (vbs 8)

/-- Gateway state with the instant (epoch milliseconds) whose ISO rendering
the `Last Poll` leaf holds; `none` before the first successful cycle (the
leaf then still holds its initial empty string). -/
structure GatewayState where
  tree : TreeState
  lastSuccess : Option Nat
deriving DecidableEq, Repr

/-- One polling cycle at wall-clock instant `now` (epoch milliseconds).
Lines 234-235 write `new Date().toISOString()` on batch success only;
the error branch (lines 227-231) leaves the `Last Poll` leaf untouched.
The ISO rendering of the instant is modelled by its decimal rendering. -/
def gatewayStep (g : GatewayState) (resp : Option (Fin 9 → Varbind)) (now : Nat) : GatewayState :=
  { tree := pollCycle g.tree resp (toString now),
    lastSuccess :=
      match resp with
      | none => g.lastSuccess
      | some _ => some now }

/-- Start instant of cycle `k` (milliseconds after process start):
`setInterval(pollOptimod, POLL_INTERVAL_MS)` (line 292) fires at every
multiple of the period, first after one full period, regardless of whether
the previous cycle's SNMP callback has run. -/
def cycleStart (T k : Nat) : Nat := (k + 1) * T

/-- Completion instant of cycle `k`: the cycle is complete once the
`session.get` callback has run and applied all its leaf updates, `d k`
milliseconds of SNMP round-trip after the cycle's start. -/
def cycleCompletion (T : Nat) (d : Nat → Nat) (k : Nat) : Nat := cycleStart T k + d k

/-- Poll-interval configuration, line 39:
`POLL_INTERVAL_MS = parseInt(process.env.POLL_INTERVAL_MS) || 5000`.
An unset variable or a parse giving NaN or 0 is falsy and falls back to
5000; any other parsed value (negatives included) is kept as-is. -/
def pollIntervalMs (env : Option String) : Int :=
  match env with
  | none => 5000
  | some s =>
      match parseIntJS s with
      | none => 5000
      | some v => if v = 0 then 5000 else v

/-- Outcome of process startup with respect to the poll interval. -/
inductive StartupOutcome where
  | started (intervalMs : Int)
  | configError
deriving DecidableEq, Repr

/-- Startup as written: the source performs no validation of the configured
interval — line 292 installs the timer with whatever `POLL_INTERVAL_MS`
evaluated to, and no code path raises a configuration error. -/
def startup (env : Option String) : StartupOutcome :=
  StartupOutcome.started (pollIntervalMs env)

/-- Parameter kind as declared in the `ParameterImpl` constructors. -/
inductive PKind where
  | string
  | boolean
deriving DecidableEq, Repr

/-- EmberPlus tree node: a parameter leaf (`NumberedTreeNodeImpl` wrapping a
`ParameterImpl`) or a group node (`NumberedTreeNodeImpl` wrapping an
`EmberNodeImpl` with numbered children). -/
inductive EmberTree where
  | leaf (number : Nat) (kind : PKind) (label : String) (descr : String) (value : PValue)
  | node (number : Nat) (label : String) (descr : String) (children : List EmberTree)

/-- Tree construction, lines 63-207: the fixed tree literal with the
top-level Optimod node, its Device Info, Monitoring and Status subtrees,
and one parameter leaf (numbered 1) under each group. -/
def buildTree (_u : Unit) : EmberTree :=
  .node 1 "Optimod" "Orban Optimod SNMP to EmberPlus Gateway"
    [ .node 1 "Device Info" "Device Information"
        [ .node 1 "Software Version" "Firmware version"
            [ .leaf 1 .string "Software Version" "Firmware version" (.str "") ],
          .node 2 "Station Name" "Station name"
            [ .leaf 1 .string "Station Name" "Station name" (.str "") ] ],
      .node 2 "Monitoring" "Monitoring Parameters"
        [ .node 1 "Input Analog" "Analog Input active status"
            [ .leaf 1 .boolean "Input Analog" "Analog Input active status" (.bool false) ],
          .node 2 "Input Digital" "Digital Input active status"
            [ .leaf 1 .boolean "Input Digital" "Digital Input active status" (.bool false) ],
          .node 3 "Analog Input Silent" "Analog input silent status"
            [ .leaf 1 .boolean "Analog Input Silent" "Analog input silent status" (.bool false) ],
          .node 4 "AES Input Silent" "AES input silent status"
            [ .leaf 1 .boolean "AES Input Silent" "AES input silent status" (.bool false) ],
          .node 5 "AES Input Error" "AES input error status"
            [ .leaf 1 .boolean "AES Input Error" "AES input error status" (.bool false) ],
          .node 6 "Power Supply 1" "Power Supply 1 status"
            [ .leaf 1 .boolean "Power Supply 1" "Power Supply 1 status" (.bool false) ],
          .node 7 "Power Supply 2" "Power Supply 2 status"
            [ .leaf 1 .boolean "Power Supply 2" "Power Supply 2 status" (.bool false) ] ],
      .node 3 "Status" "Connection status"
        [ .node 1 "Connected" "Optimod connection status"
            [ .leaf 1 .boolean "Optimod Connected"
                "Indicates if the Optimod device is reachable via SNMP" (.bool false) ],
          .node 2 "Last Poll" "Timestamp of last successful SNMP poll"
            [ .leaf 1 .string "Last Poll"
                "Timestamp of the last successful SNMP poll" (.str "") ] ] ]

mutual

/-- Paths (sequences of sibling numbers from the root) of all parameter
leaves of a tree, in traversal order. -/
def leafPathList (above : List Nat) : EmberTree → List (List Nat)
  | .leaf n _ _ _ _ => [above ++ [n]]
  | .node n _ _ cs => leafPathsOver (above ++ [n]) cs

/-- Paths of all parameter leaves of a forest, in traversal order. -/
def leafPathsOver (above : List Nat) : List EmberTree → List (List Nat)
  | [] => []
  | t :: ts => leafPathList above t ++ leafPathsOver above ts

end

mutual

/-- Labels of all parameter leaves of a tree, in traversal order. -/
def leafLabelList : EmberTree → List String
  | .leaf _ _ label _ _ => [label]
  | .node _ _ _ cs => leafLabelsOver cs

/-- Labels of all parameter leaves of a forest, in traversal order. -/
def leafLabelsOver : List EmberTree → List String
  | [] => []
  | t :: ts => leafLabelList t ++ leafLabelsOver ts

end

/-- Labels of the children of the root node (the top-level grouping). -/
def rootChildLabels : EmberTree → List String
  | .leaf _ _ _ _ _ => []
  | .node _ _ _ cs => cs.map (fun t => match t with
      | .leaf _ _ label _ _ => label
      | .node _ label _ _ => label)

/-- Boolean leaf-value typing of a tree state: String-kind leaves
(softwareVersion, stationName, lastPoll) hold `.str` values and
Boolean-kind leaves (the seven monitoring leaves and connected) hold
`.bool` values, matching the `ParameterType` declared for each
`ParameterImpl` (lines 63-112). -/
def PValue.isStr : PValue → Bool
  | .str _ => true
  | .bool _ => false

/-- Test for a boolean-shaped parameter value. -/
def PValue.isBool : PValue → Bool
  | .str _ => false
  | .bool _ => true

/-- Well-typedness of the eleven leaves with respect to their declared
parameter kinds. -/
def wellTyped (s : TreeState) : Bool :=
  s.softwareVersion.isStr && s.stationName.isStr &&
  s.inputAnalog.isBool && s.inputDigital.isBool && s.analogInputSilent.isBool &&
  s.aesInputSilent.isBool && s.aesInputError.isBool && s.powerSupply1Status.isBool &&
  s.powerSupply2Status.isBool && s.connected.isBool && s.lastPoll.isStr

/-- Net effect of one item of the forEach loop on its own leaf: an error
marker retains the old value, a successful varbind yields the decode. -/
def itemResult (old : PValue) (i : Fin 9) (vb : Varbind) : PValue :=
  match vb with
  | .err => old
  | .ok v => decodeItem i v

theorem leafValue_markSuccess (s : TreeState) (now : String) (j : Fin 9) :
    leafValue (markSuccess s now) j = leafValue s j := by
  fin_cases j <;> rfl

theorem leafValue_markFailure (s : TreeState) (j : Fin 9) :
    leafValue (markFailure s) j = leafValue s j := by
  fin_cases j <;> rfl

theorem applyItem_connected (s : TreeState) (i : Fin 9) (vb : Varbind) :
    (applyItem s i vb).connected = s.connected := by
  fin_cases i <;> cases vb <;> rfl

theorem applyItem_lastPoll (s : TreeState) (i : Fin 9) (vb : Varbind) :
    (applyItem s i vb).lastPoll = s.lastPoll := by
  fin_cases i <;> cases vb <;> rfl

theorem applyItem_get (s : TreeState) (i j : Fin 9) (vb : Varbind) :
    leafValue (applyItem s i vb) j =
      if i = j then itemResult (leafValue s j) j vb else leafValue s j := by
  fin_cases i <;> fin_cases j <;> cases vb <;>
    simp [applyItem, setLeaf, leafValue, itemResult]

theorem pollCycle_none_connected (s : TreeState) (now : String) :
    (pollCycle s none now).connected = PValue.bool false := rfl

theorem pollCycle_none_lastPoll (s : TreeState) (now : String) :
    (pollCycle s none now).lastPoll = s.lastPoll := rfl

theorem pollCycle_none_leaf (s : TreeState) (now : String) (j : Fin 9) :
    leafValue (pollCycle s none now) j = leafValue s j := by
  fin_cases j <;> rfl

theorem pollCycle_some_connected (s : TreeState) (vbs : Fin 9 → Varbind) (now : String) :
    (pollCycle s (some vbs) now).connected = PValue.bool true := by
  simp [pollCycle, applyItem_connected, markSuccess]

theorem pollCycle_some_lastPoll (s : TreeState) (vbs : Fin 9 → Varbind) (now : String) :
    (pollCycle s (some vbs) now).lastPoll = PValue.str now := by
  simp [pollCycle, applyItem_lastPoll, markSuccess]

theorem pollCycle_some_leaf (s : TreeState) (vbs : Fin 9 → Varbind) (now : String) (j : Fin 9) :
    leafValue (pollCycle s (some vbs) now) j = itemResult (leafValue s j) j (vbs j) := by
  fin_cases j <;>
    simp [pollCycle, applyItem_get, leafValue_markSuccess]

theorem markFailure_wellTyped (s : TreeState) (h : wellTyped s = true) :
    wellTyped (markFailure s) = true := by
  simp_all [wellTyped, markFailure, PValue.isBool]

theorem markSuccess_wellTyped (s : TreeState) (now : String) (h : wellTyped s = true) :
    wellTyped (markSuccess s now) = true := by
  simp_all [wellTyped, markSuccess, PValue.isBool, PValue.isStr]

theorem applyItem_wellTyped (s : TreeState) (i : Fin 9) (vb : Varbind)
    (h : wellTyped s = true) : wellTyped (applyItem s i vb) = true := by
  fin_cases i <;> cases vb <;>
    simp_all [applyItem, setLeaf, decodeItem, wellTyped, PValue.isStr, PValue.isBool]

/-- Batch varbind assignment in which exactly the item at index `i` carries
the protocol-level error marker and every other item succeeds with its raw
value from `raw`. -/
def errAt (i : Fin 9) (raw : Fin 9 → RawValue) : Fin 9 → Varbind :=
  fun j => if j = i then Varbind.err else Varbind.ok (raw j)

/-- C1: when the batch read fails as a whole, no data leaf value is
updated, the availability leaf transitions to Disconnected (`false`), and
the last-success timestamp leaf is left unchanged from its value before
the cycle. -/
theorem batch_failure_total (s : TreeState) (now : String) :
    (pollCycle s none now).connected = PValue.bool false ∧
    (pollCycle s none now).lastPoll = s.lastPoll ∧
    ∀ j : Fin 9, leafValue (pollCycle s none now) j = leafValue s j :=
  ⟨pollCycle_none_connected s now, pollCycle_none_lastPoll s now,
   pollCycle_none_leaf s now⟩

/-- C2: when the batch read succeeds, the availability leaf transitions to
Connected, the last-success timestamp is set to the cycle's completion
instant — a time ≥ its previous value, given that the wall clock is
nondecreasing — and this holds for every varbind assignment, error markers
included. -/
theorem batch_success_availability (g : GatewayState) (vbs : Fin 9 → Varbind) (now : Nat)
    (hclock : ∀ t, g.lastSuccess = some t → t ≤ now) :
    (gatewayStep g (some vbs) now).tree.connected = PValue.bool true ∧
    (gatewayStep g (some vbs) now).lastSuccess = some now ∧
    (gatewayStep g (some vbs) now).tree.lastPoll = PValue.str (toString now) ∧
    ∀ t, g.lastSuccess = some t → t ≤ now := by
  refine ⟨?_, rfl, ?_, hclock⟩
  · exact pollCycle_some_connected g.tree vbs (toString now)
  · exact pollCycle_some_lastPoll g.tree vbs (toString now)

/-- C2 witness: a concrete successful cycle at instant 7, with a previous
success at instant 5 and an error marker on item 3. -/
theorem batch_success_availability_witness :
    (gatewayStep ⟨initialTree, some 5⟩
        (some (errAt 3 (fun _ => RawValue.rint 1))) 7).tree.connected = PValue.bool true ∧
    (gatewayStep ⟨initialTree, some 5⟩
        (some (errAt 3 (fun _ => RawValue.rint 1))) 7).lastSuccess = some 7 ∧
    (gatewayStep ⟨initialTree, some 5⟩
        (some (errAt 3 (fun _ => RawValue.rint 1))) 7).tree.lastPoll = PValue.str (toString 7) ∧
    ∀ t, (⟨initialTree, some 5⟩ : GatewayState).lastSuccess = some t → t ≤ 7 :=
  batch_success_availability ⟨initialTree, some 5⟩ (errAt 3 (fun _ => RawValue.rint 1)) 7
    (by intro t ht; simp at ht; omega)

/-- C3: the boolean decode of a raw integer is `true` exactly when the
integer equals 1; every other integer, 0, 2 and negatives included,
decodes to `false`. -/
theorem bool_decode_exact (n : Int) :
    decodeBool (RawValue.rint n) = true ↔ n = 1 := by
  simp [decodeBool, parseIntRaw]

/-- C4: in a successful batch where exactly item `i` carries the error
marker, leaf `i` retains its previous value, every other leaf is updated
with its decoded value, and the cycle is still an overall success
(Connected set, timestamp stamped). -/
theorem per_item_failure_isolation (s : TreeState) (now : String) (i : Fin 9)
    (raw : Fin 9 → RawValue) :
    leafValue (pollCycle s (some (errAt i raw)) now) i = leafValue s i ∧
    (∀ j, j ≠ i → leafValue (pollCycle s (some (errAt i raw)) now) j = decodeItem j (raw j)) ∧
    (pollCycle s (some (errAt i raw)) now).connected = PValue.bool true ∧
    (pollCycle s (some (errAt i raw)) now).lastPoll = PValue.str now := by
  refine ⟨?_, ?_, pollCycle_some_connected _ _ _, pollCycle_some_lastPoll _ _ _⟩
  · rw [pollCycle_some_leaf]
    simp [errAt, itemResult]
  · intro j hj
    rw [pollCycle_some_leaf]
    simp [errAt, if_neg hj, itemResult]

/-- C4 witness: batch of nine items, item 3 errors, all others return the
integer 1; leaf 3 keeps its initial value, leaf 2 is decoded, and the
cycle reports success. -/
theorem per_item_failure_isolation_witness :
    leafValue (pollCycle initialTree (some (errAt 3 (fun _ => RawValue.rint 1))) "t") 3 =
      leafValue initialTree 3 ∧
    leafValue (pollCycle initialTree (some (errAt 3 (fun _ => RawValue.rint 1))) "t") 2 =
      decodeItem 2 (RawValue.rint 1) ∧
    (pollCycle initialTree (some (errAt 3 (fun _ => RawValue.rint 1))) "t").connected =
      PValue.bool true :=
  ⟨(per_item_failure_isolation initialTree "t" 3 (fun _ => RawValue.rint 1)).1,
   (per_item_failure_isolation initialTree "t" 3 (fun _ => RawValue.rint 1)).2.1 2 (by decide),
   (per_item_failure_isolation initialTree "t" 3 (fun _ => RawValue.rint 1)).2.2.1⟩

/-- C5 counterexample: with the period 5000 ms of the source's default and
a 6000 ms SNMP round-trip, cycle 1 starts at 10000 ms, before cycle 0
completes at 11000 ms — `setInterval` fires on schedule regardless of the
outstanding callback, so consecutive cycles overlap. -/
theorem cycle_overlap_counterexample :
    cycleStart 5000 (0 + 1) < cycleCompletion 5000 (fun _ => 6000) 0 := by
  decide

/-- C5 amended: the timer fires at fixed multiples of the period, so cycle
`k+1` starts no earlier than cycle `k` completes only under the additional
assumption that cycle `k`'s duration is at most the period. -/
theorem no_overlap_when_cycles_fit (T : Nat) (d : Nat → Nat) (k : Nat)
    (h : d k ≤ T) :
    cycleCompletion T d k ≤ cycleStart T (k + 1) ∧
    cycleStart T (k + 1) = cycleStart T k + T := by
  constructor
  · show (k + 1) * T + d k ≤ (k + 1 + 1) * T
    have h2 : (k + 1 + 1) * T = (k + 1) * T + T := by ring
    rw [h2]
    exact Nat.add_le_add_left h _
  · show (k + 1 + 1) * T = (k + 1) * T + T
    ring

/-- C5 amended witness: a 4000 ms cycle under a 5000 ms period completes
at 9000 ms, before the next start at 10000 ms. -/
theorem no_overlap_when_cycles_fit_witness :
    cycleCompletion 5000 (fun _ => 4000) 0 ≤ cycleStart 5000 (0 + 1) ∧
    cycleStart 5000 (0 + 1) = cycleStart 5000 0 + 5000 :=
  no_overlap_when_cycles_fit 5000 (fun _ => 4000) 0 (by decide)

/-- C6 counterexample: the environment string "-100" parses to the
non-positive interval −100, yet startup proceeds with it — no code path
yields a configuration error. -/
theorem startup_accepts_negative_interval :
    startup (some "-100") = StartupOutcome.started (-100) ∧
    pollIntervalMs (some "-100") = -100 ∧
    ¬ (0 < (-100 : Int)) := by
  refine ⟨?_, ?_, by decide⟩ <;> decide

/-- C6 amended: startup never fails on the poll interval; an unset,
unparseable or zero value falls back to the default 5000 ms, and any other
parsed value — negatives included — is used as-is. -/
theorem startup_interval_fallback (env : Option String) :
    startup env = StartupOutcome.started (pollIntervalMs env) ∧
    (env.bind parseIntJS = none → pollIntervalMs env = 5000) ∧
    (env.bind parseIntJS = some 0 → pollIntervalMs env = 5000) ∧
    (∀ v, env.bind parseIntJS = some v → v ≠ 0 → pollIntervalMs env = v) := by
  cases env with
  | none =>
      refine ⟨rfl, fun _ => rfl, ?_, ?_⟩
      · intro h; simp at h
      · intro v h; simp at h
  | some s =>
      cases h : parseIntJS s with
      | none =>
          refine ⟨rfl, ?_, ?_, ?_⟩
          · intro _; simp [pollIntervalMs, h]
          · intro hc; simp [h] at hc
          · intro v hc; simp [h] at hc
      | some v0 =>
          refine ⟨rfl, ?_, ?_, ?_⟩
          · intro hc; simp [h] at hc
          · intro hc
            simp [h] at hc
            simp [pollIntervalMs, h, hc]
          · intro v hc hne
            simp [h] at hc
            subst hc
            simp [pollIntervalMs, h, if_neg hne]

/-- C6 amended witness: "-100" parses to −100 ≠ 0, so startup runs with
interval −100. -/
theorem startup_interval_fallback_witness :
    startup (some "-100") = StartupOutcome.started (pollIntervalMs (some "-100")) ∧
    pollIntervalMs (some "-100") = -100 :=
  ⟨(startup_interval_fallback (some "-100")).1,
   (startup_interval_fallback (some "-100")).2.2.2 (-100) (by decide) (by decide)⟩

/-- C7: a String-kind quantity's leaf receives the textual representation
of its raw value verbatim. -/
theorem string_leaf_verbatim (s : TreeState) (now : String) (vbs : Fin 9 → Varbind)
    (i : Fin 9) (p : String) (hi : i.val ≤ 1)
    (hvb : vbs i = Varbind.ok (RawValue.rstr p)) :
    leafValue (pollCycle s (some vbs) now) i = PValue.str p := by
  rw [pollCycle_some_leaf, hvb]
  simp [itemResult, decodeItem, hi, toStringJS]

/-- C7 witness: the empty textual payload is stored verbatim in the
station-name leaf. -/
theorem string_leaf_verbatim_witness :
    leafValue (pollCycle initialTree (some (fun _ => Varbind.ok (RawValue.rstr ""))) "t") 1 =
      PValue.str "" :=
  string_leaf_verbatim initialTree "t" (fun _ => Varbind.ok (RawValue.rstr "")) 1 ""
    (by decide) rfl

/-- C8: tree construction is deterministic — two builds are structurally
identical, with the fixed leaf paths, the fixed leaf labels, and the
grouping into the Device Info, Monitoring and Status subtrees. -/
theorem tree_build_deterministic (u v : Unit) :
    buildTree u = buildTree v ∧
    leafPathList [] (buildTree u) =
      [[1, 1, 1, 1], [1, 1, 2, 1],
       [1, 2, 1, 1], [1, 2, 2, 1], [1, 2, 3, 1], [1, 2, 4, 1], [1, 2, 5, 1],
       [1, 2, 6, 1], [1, 2, 7, 1],
       [1, 3, 1, 1], [1, 3, 2, 1]] ∧
    leafLabelList (buildTree u) =
      ["Software Version", "Station Name",
       "Input Analog", "Input Digital", "Analog Input Silent", "AES Input Silent",
       "AES Input Error", "Power Supply 1", "Power Supply 2",
       "Optimod Connected", "Last Poll"] ∧
    rootChildLabels (buildTree u) = ["Device Info", "Monitoring", "Status"] :=
  ⟨rfl, rfl, rfl, rfl⟩

/-- C9: the boolean decode is total — a raw payload whose integer parse
fails decodes to `false` and is written to the leaf rather than skipped. -/
theorem bool_decode_total_on_parse_failure (s : TreeState) (now : String)
    (vbs : Fin 9 → Varbind) (i : Fin 9) (p : String) (hi : 1 < i.val)
    (hvb : vbs i = Varbind.ok (RawValue.rstr p)) (hp : parseIntJS p = none) :
    leafValue (pollCycle s (some vbs) now) i = PValue.bool false := by
  rw [pollCycle_some_leaf, hvb]
  have hd : decodeBool (RawValue.rstr p) = false := by
    simp [decodeBool, parseIntRaw, hp]
  simp [itemResult, decodeItem, if_neg (by omega : ¬ i.val ≤ 1), hd]

/-- C9 witness: the unparseable payload "n/a" overwrites an
`inputAnalog` leaf that previously held `true` with `false` — the leaf is
written, not skipped. -/
theorem bool_decode_total_witness :
    leafValue (pollCycle { initialTree with inputAnalog := PValue.bool true }
        (some (fun _ => Varbind.ok (RawValue.rstr "n/a"))) "t") 2 = PValue.bool false :=
  bool_decode_total_on_parse_failure { initialTree with inputAnalog := PValue.bool true }
    "t" (fun _ => Varbind.ok (RawValue.rstr "n/a")) 2 "n/a" (by decide) rfl (by decide)

/-- C10: every cycle preserves leaf typing — String-kind leaves (the
last-poll timestamp included) only ever hold string values and
Boolean-kind leaves (the connected leaf included) only ever hold boolean
values. -/
theorem leaf_updates_type_correct (s : TreeState) (resp : Option (Fin 9 → Varbind))
    (now : String) (h : wellTyped s = true) :
    wellTyped (pollCycle s resp now) = true := by
  cases resp with
  | none => exact markFailure_wellTyped s h
  | some vbs =>
      simp only [pollCycle]
      exact applyItem_wellTyped _ _ _ (applyItem_wellTyped _ _ _ (applyItem_wellTyped _ _ _
        (applyItem_wellTyped _ _ _ (applyItem_wellTyped _ _ _ (applyItem_wellTyped _ _ _
          (applyItem_wellTyped _ _ _ (applyItem_wellTyped _ _ _ (applyItem_wellTyped _ _ _
            (markSuccess_wellTyped s now h)))))))))

/-- C10 witness: the initial tree is well-typed and remains so after a
concrete mixed cycle. -/
theorem leaf_updates_type_correct_witness :
    wellTyped initialTree = true ∧
    wellTyped (pollCycle initialTree
        (some (errAt 4 (fun _ => RawValue.rint 1))) "t") = true :=
  ⟨by decide,
   leaf_updates_type_correct initialTree (some (errAt 4 (fun _ => RawValue.rint 1))) "t"
     (by decide)⟩
